import Mathlib

/-!
Shallow embedding of the `ocs` host supervision core.

The embedded code is `src/ocs/agent/host_manager.py` and
`src/ocs/agent/host_master.py`: the per-instance lifecycle reconciliation
state machine (`resolve_child_state`, two coexisting variants), the
stability estimator (`stability_factor`) and the container inventory
reader (`parse_docker_state`).

Modelling conventions:
* the wall clock `time.time()` is injected as a parameter `now : ℚ`
  (every call inside one invocation reads the same injected value);
* Python floats are modelled as rationals;
* a Python function that can raise an uncaught exception is embedded as
  an `Option`- or `Except`-valued function, with `none` / `.error`
  standing for the raised exception.
-/

namespace OCS

/-- Child Executor handle as the state machine reads it
(`AgentProcessHelper` / `DockerContainerHelper` in
`src/ocs/agent/host_manager.py`): `status` is the pair
`(exit code or none, observation time or none)`; `lines` models the
executor's optional `lines['stderr']` buffer, a list of chunks where each
chunk is the list of lines of one received block (`none` when the
executor has no `lines` attribute, as for `DockerContainerHelper`). -/
structure Prot where
  status : Option Int × Option ℚ
  lines : Option (List (List String))
deriving DecidableEq

/-- Per-agent instance record: the `db` dict threaded through
`resolve_child_state` in both source variants. -/
structure Record where
  full_name : String
  class_name : String
  agent_script : Option String
  target_state : String
  next_action : String
  at' : ℚ
  prot : Option Prot
  start_times : List ℚ
deriving DecidableEq

/-- The Decision dict (`actions`) returned by `resolve_child_state`. -/
structure Actions where
  messages : List String
  launch : Bool
  terminate : Bool
  sleep : Option ℚ
deriving DecidableEq

/-- The initial `actions` value: no messages, no flags, no sleep. -/
def noAction : Actions := { messages := [], launch := false, terminate := false, sleep := none }

/-- Models the Python expression `'\n'.join(chunks)` as it occurs in
`host_manager.resolve_child_state`, where each element of `chunks` is
itself a list of strings (as built by `AgentProcessHelper.errReceived`).
Joining a non-empty list whose elements are lists raises `TypeError`,
modelled as `none`; joining the empty list yields `""`. -/
def joinStderr : List (List String) → Option String
  | [] => some ""
  | _ :: _ => none

/-- The stderr-attachment message of `host_manager.resolve_child_state`
(lines 95-102): when the buffer holds more than 50 chunks only the last
20 are joined and a `" (trimmed)"` note is added.  `none` models the
`TypeError` raised by `'\n'.join` on a non-empty chunk list. -/
def stderrAttachment (full_name : String) (chunks : List (List String)) : Option String :=
  if chunks.length > 50 then
    (joinStderr (chunks.drop (chunks.length - 20))).map
      (fun joined => "stderr output from " ++ full_name ++ " (trimmed)" ++ ": " ++ joined)
  else
    (joinStderr chunks).map
      (fun joined => "stderr output from " ++ full_name ++ ": " ++ joined)

namespace HostManager

/-- `resolve_child_state` from `src/ocs/agent/host_manager.py`
(lines 8-135).  Returns the Decision together with the updated record
(the source mutates `db` in place); `none` models an uncaught Python
exception (`AttributeError` on `prot.status` when `prot is None` in
state `up`, or `TypeError` from `'\n'.join` over the stderr chunk
list). -/
def resolve_child_state (now : ℚ) (db : Record) : Option (Actions × Record) :=
  if db.next_action = "wait_start" then
    match db.prot with
    | some _ =>
        some ({ noAction with messages := ["Launched " ++ db.full_name] },
              { db with next_action := "up" })
    | none =>
        if db.at' ≤ now then
          some ({ noAction with
                    messages := ["Launch not detected for " ++ db.full_name ++ "!  Will retry."] },
                { db with next_action := "start_at", at' := now + 5 })
        else
          some (noAction, db)
  else if db.next_action = "wait_dead" then
    -- `prot is None` yields `stat, t = 0, None`, so the first branch fires.
    match db.prot with
    | none => some (noAction, { db with next_action := "down" })
    | some p =>
        match p.status.1 with
        | some _ => some (noAction, { db with next_action := "down" })
        | none =>
            if db.at' ≤ now then
              some ({ noAction with
                        messages := ["Agent instance " ++ db.full_name ++ " refused to die."] },
                    { db with next_action := "down" })
            else
              some ({ noAction with sleep := some (db.at' - now) }, db)
  else if db.target_state = "up" then
    if db.next_action = "start_at" then
      if db.at' ≤ now then
        some (noAction, { db with next_action := "start" })
      else
        some ({ noAction with sleep := some (db.at' - now) }, db)
    else if db.next_action = "start" then
      match db.agent_script with
      | none =>
          some ({ noAction with
                    messages := ["No Agent script registered for class: " ++ db.class_name] },
                { db with next_action := "down" })
      | some _ =>
          some ({ noAction with
                    messages := ["Requested launch for " ++ db.full_name], launch := true },
                { db with prot := none, next_action := "wait_start", at' := now + 1,
                          start_times := db.start_times ++ [now] })
    else if db.next_action = "up" then
      match db.prot with
      | none => none
      | some p =>
          match p.status.1 with
          | none => some (noAction, db)
          | some c =>
              match p.lines with
              | none =>
                  some ({ noAction with
                            messages := ["Detected exit of " ++ db.full_name ++
                                         " with code " ++ toString c ++ "."] },
                        { db with next_action := "start_at", at' := now + 3 })
              | some chunks =>
                  match stderrAttachment db.full_name chunks with
                  | none => none
                  | some msg =>
                      some ({ noAction with
                                messages := ["Detected exit of " ++ db.full_name ++
                                             " with code " ++ toString c ++ ".", msg] },
                            { db with next_action := "start_at", at' := now + 3 })
    else
      some (noAction, { db with next_action := "start" })
  else if db.target_state = "down" then
    if db.next_action = "down" then
      match db.prot with
      | some p =>
          if p.status.1 = none then
            some ({ noAction with
                      messages := ["Detected unexpected session for " ++ db.full_name ++
                                   " (probably docker); changing target state to \"up\"."] },
                  { db with target_state := "up" })
          else
            some (noAction, db)
      | none => some (noAction, db)
    else if db.next_action = "up" then
      some ({ noAction with
                messages := ["Requesting termination of " ++ db.full_name], terminate := true },
            { db with next_action := "wait_dead", at' := now + 5 })
    else
      some ({ noAction with
                messages := ["Modifying state of " ++ db.full_name ++ " from " ++
                             db.next_action ++ " to idle"] },
            { db with next_action := "down" })
  else
    some ({ noAction with
              messages := ["State machine failure: state=" ++ db.next_action ++
                           ", target_state=" ++ db.target_state] },
          db)

/-- The record part of one reconciliation tick. -/
def stepR (now : ℚ) (db : Record) : Option Record :=
  (resolve_child_state now db).map Prod.snd

end HostManager

namespace HostMaster

/-- `resolve_child_state` from `src/ocs/agent/host_master.py`
(lines 3-119), the simpler coexisting variant.  Differences from the
`host_manager` variant, kept faithfully: messages are threaded through a
trivial session shim (semantically plain appends); `sleep_time` starts
at `1.` and is lowered with `min` in the deadline branches, and the
returned Decision always carries it; the `start` branch does not append
to `start_times`; the `up` branch attaches no stderr; and target `down`
with state `down` does nothing (no unexpected-session handling).
`none` models an uncaught Python exception. -/
def resolve_child_state (now : ℚ) (db : Record) : Option (Actions × Record) :=
  if db.next_action = "wait_start" then
    match db.prot with
    | some _ =>
        some ({ noAction with messages := ["Launched " ++ db.full_name], sleep := some 1 },
              { db with next_action := "up" })
    | none =>
        if db.at' ≤ now then
          some ({ noAction with
                    messages := ["Launch not detected for " ++ db.full_name ++ "!  Will retry."],
                    sleep := some 1 },
                { db with next_action := "start_at", at' := now + 5 })
        else
          some ({ noAction with sleep := some 1 }, db)
  else if db.next_action = "wait_dead" then
    match db.prot with
    | none => some ({ noAction with sleep := some 1 }, { db with next_action := "down" })
    | some p =>
        match p.status.1 with
        | some _ => some ({ noAction with sleep := some 1 }, { db with next_action := "down" })
        | none =>
            if db.at' ≤ now then
              some ({ noAction with
                        messages := ["Agent instance " ++ db.full_name ++ " refused to die."],
                        sleep := some 1 },
                    { db with next_action := "down" })
            else
              some ({ noAction with sleep := some (min 1 (db.at' - now)) }, db)
  else if db.target_state = "up" then
    if db.next_action = "start_at" then
      if db.at' ≤ now then
        some ({ noAction with sleep := some 1 }, { db with next_action := "start" })
      else
        some ({ noAction with sleep := some (min 1 (db.at' - now)) }, db)
    else if db.next_action = "start" then
      match db.agent_script with
      | none =>
          some ({ noAction with
                    messages := ["No Agent script registered for class: " ++ db.class_name],
                    sleep := some 1 },
                { db with next_action := "down" })
      | some _ =>
          some ({ noAction with
                    messages := ["Requested launch for " ++ db.full_name],
                    launch := true, sleep := some 1 },
                { db with prot := none, next_action := "wait_start", at' := now + 1 })
    else if db.next_action = "up" then
      match db.prot with
      | none => none
      | some p =>
          match p.status.1 with
          | none => some ({ noAction with sleep := some 1 }, db)
          | some c =>
              some ({ noAction with
                        messages := ["Detected exit of " ++ db.full_name ++
                                     " with code " ++ toString c ++ "."],
                        sleep := some 1 },
                    { db with next_action := "start_at", at' := now + 3 })
    else
      some ({ noAction with sleep := some 1 }, { db with next_action := "start" })
  else if db.target_state = "down" then
    if db.next_action = "down" then
      some ({ noAction with sleep := some 1 }, db)
    else if db.next_action = "up" then
      some ({ noAction with
                messages := ["Requesting termination of " ++ db.full_name],
                terminate := true, sleep := some 1 },
            { db with next_action := "wait_dead", at' := now + 5 })
    else
      some ({ noAction with
                messages := ["Modifying state of " ++ db.full_name ++ " from " ++
                             db.next_action ++ " to idle"],
                sleep := some 1 },
            { db with next_action := "down" })
  else
    some ({ noAction with
              messages := ["State machine failure: state=" ++ db.next_action ++
                           ", target_state=" ++ db.target_state],
              sleep := some 1 },
          db)

end HostMaster

namespace HostManager

/-- `stability_factor` from `src/ocs/agent/host_manager.py`
(lines 138-154), with the clock injected and the `window` default of
`120` made explicit at call sites.  `times[-200:-1]` is embedded as
`(times.drop (times.length - 200)).dropLast` and `times[-1:]` as
`times.drop (times.length - 1)`; both agree with Python's clamping
slice semantics. -/
def stability_factor (now : ℚ) (times : List ℚ) (window : ℚ) : List ℚ × ℚ :=
  if times.length = 0 then (times, -1)
  else
    let culled := ((times.drop (times.length - 200)).dropLast.filter
                     (fun t => now - window ≤ t)) ++ times.drop (times.length - 1)
    (culled, 1 / (culled.length : ℚ))

end HostManager

/-- One `docker inspect` response for one container id, as consumed by
`parse_docker_state` (`src/ocs/agent/host_manager.py` lines 292-316).
`code` is the exit code of the `docker inspect` invocation; `samefile`
abstracts `os.path.samefile(docker_compose_file, _dc_file)` on the
compose-file label; `service` is the
`com.docker.compose.service` label; `running` is `info.State.Running`;
`exitCode` is `info.State.ExitCode` when that field is present. -/
structure InspectInfo where
  service : String
  code : Int
  samefile : Bool
  running : Bool
  exitCode : Option Int
deriving DecidableEq

/-- One observation value of the summary mapping produced by
`parse_docker_state`. -/
structure Observation where
  service : String
  running : Bool
  exit_code : Int
  container_found : Bool
  compose_file : String
deriving DecidableEq

namespace HostManager

/-- The seeded summary: one observation per declared service
(`src/ocs/agent/host_manager.py` lines 273-281). -/
def seedSummary (docker_compose_file : String) (services : List String) :
    List (String × Observation) :=
  services.map fun key =>
    (key, { service := key, running := false, exit_code := 127,
            container_found := false, compose_file := docker_compose_file })

/-- Processing of one `docker inspect` response against the summary
(`src/ocs/agent/host_manager.py` lines 295-316): a nonzero inspect exit
code raises `RuntimeError`; a compose-file label naming another file
raises `RuntimeError`; a service label not among the declared services
fails the `assert`; otherwise the matching observation is updated with
`running`, `exit_code` (defaulting to `127` when absent) and
`container_found = true`. -/
def applyInspect (summary : List (String × Observation)) (i : InspectInfo) :
    Except String (List (String × Observation)) :=
  if i.code ≠ 0 then
    .error "Trouble running docker inspect."
  else if ¬ i.samefile then
    .error "Consistency problem: container started from some other compose file?"
  else if ¬ summary.any (fun p => p.1 = i.service) then
    .error "AssertionError"
  else
    .ok (summary.map fun p =>
      if p.1 = i.service then
        (p.1, { p.2 with running := i.running, exit_code := i.exitCode.getD 127,
                         container_found := true })
      else p)

/-- The inspect loop of `parse_docker_state`. -/
def inspectLoop (summary : List (String × Observation)) :
    List InspectInfo → Except String (List (String × Observation))
  | [] => .ok summary
  | i :: rest =>
      match applyInspect summary i with
      | .error e => .error e
      | .ok summary2 => inspectLoop summary2 rest

/-- `parse_docker_state` from `src/ocs/agent/host_manager.py`
(lines 250-317).  The I/O boundary is abstracted into inputs: `services`
are the names declared in the parsed compose file, `psCode` is the exit
code of `docker-compose ps -q`, and `inspects` holds one
`InspectInfo` per non-blank container id line, in order.  `.error`
models the raised `RuntimeError` / `AssertionError`. -/
def parse_docker_state (docker_compose_file : String) (services : List String)
    (psCode : Int) (inspects : List InspectInfo) :
    Except String (List (String × Observation)) :=
  if psCode ≠ 0 then
    .error "Could not run docker-compose or could not parse docker-compose file."
  else
    inspectLoop (seedSummary docker_compose_file services) inspects

end HostManager

/-- The culled list of `stability_factor`, written the way the
specification describes it: keep the last 200 entries, drop the final
entry, retain only entries with timestamp at least `now - window`, then
re-append the final entry. -/
def culledSpec (now window : ℚ) (times : List ℚ) : List ℚ :=
  (((times.reverse.take 200).reverse.dropLast).filter
     (fun t => now - window ≤ t)) ++ [times.getLastD 0]

/-- A live executor handle: no exit code observed yet. -/
def aliveProt : Prot := { status := (none, some 0), lines := none }

/-- A dead executor handle: exit code `1` observed at time `0`. -/
def deadProt : Prot := { status := (some 1, some 0), lines := none }

/-- A concrete idle instance record used to instantiate the theorems. -/
def baseRec : Record :=
  { full_name := "agent1", class_name := "ClassA", agent_script := some "run.py",
    target_state := "down", next_action := "down", at' := 0, prot := none,
    start_times := [] }

end OCS

namespace OCS

/-! ## Theorems -/

/-- C1: for every input instance record, the Decision returned by
`resolve_child_state` (either variant) never has both `launch = true`
and `terminate = true`; at most one of the two flags is set in any
single call. -/
theorem c1_launch_terminate_exclusive :
    (∀ (now : ℚ) (db : Record) (a : Actions) (r : Record),
        HostManager.resolve_child_state now db = some (a, r) →
        ¬(a.launch = true ∧ a.terminate = true)) ∧
    (∀ (now : ℚ) (db : Record) (a : Actions) (r : Record),
        HostMaster.resolve_child_state now db = some (a, r) →
        ¬(a.launch = true ∧ a.terminate = true)) := by
  constructor <;>
    · intro now db a r h
      first
      | unfold HostManager.resolve_child_state at h
      | unfold HostMaster.resolve_child_state at h
      repeat' split at h
      all_goals
        first
        | · rw [Option.some.injEq, Prod.mk.injEq] at h
            obtain ⟨rfl, rfl⟩ := h
            simp [noAction]
        | exact absurd h (by simp)

/-- Witness for C1 at a concrete record (idle instance, target `down`). -/
theorem c1_launch_terminate_exclusive_witness :
    ¬((noAction).launch = true ∧ (noAction).terminate = true) :=
  c1_launch_terminate_exclusive.1 0 baseRec noAction baseRec (by decide)

/-- C10: the `host_master` variant of `resolve_child_state` always
returns a Decision whose `sleep` field is present, positive and at most
`1`: it is `1` unless a pending `at` deadline yields a smaller positive
`at - now`. -/
theorem c10_master_sleep_in_unit_interval :
    ∀ (now : ℚ) (db : Record) (a : Actions) (r : Record),
      HostMaster.resolve_child_state now db = some (a, r) →
      ∃ s : ℚ, a.sleep = some s ∧ 0 < s ∧ s ≤ 1 ∧
        (s = 1 ∨ (s = db.at' - now ∧ s < 1 ∧ now < db.at')) := by
  intro now db a r h
  unfold HostMaster.resolve_child_state at h
  repeat' split at h
  all_goals
    first
    | · rw [Option.some.injEq, Prod.mk.injEq] at h
        obtain ⟨rfl, rfl⟩ := h
        first
        | exact ⟨1, rfl, by norm_num, by norm_num, Or.inl rfl⟩
        | · rename_i hlt
            have hnow : now < db.at' := by
              simpa using hlt
            rcases le_or_lt 1 (db.at' - now) with h1 | h1
            · exact ⟨1, by simp [min_eq_left h1], by norm_num, by norm_num, Or.inl rfl⟩
            · refine ⟨db.at' - now, by simp [min_eq_right h1.le], by linarith, by linarith,
                Or.inr ⟨rfl, h1, hnow⟩⟩
    | exact absurd h (by simp)

/-- Witness for C10 at a concrete record (idle instance, target `down`,
clock `0`). -/
theorem c10_master_sleep_in_unit_interval_witness :
    ∃ s : ℚ, ({ noAction with sleep := some 1 } : Actions).sleep = some s ∧ 0 < s ∧ s ≤ 1 ∧
      (s = 1 ∨ (s = baseRec.at' - 0 ∧ s < 1 ∧ (0 : ℚ) < baseRec.at')) :=
  c10_master_sleep_in_unit_interval 0 baseRec { noAction with sleep := some 1 } baseRec
    (by decide)

/-- Python `l[-1:]` for a non-empty list is the one-element list holding
the final entry. -/
theorem drop_length_sub_one {l : List ℚ} (h : l ≠ []) :
    l.drop (l.length - 1) = [l.getLastD 0] := by
  induction l with
  | nil => exact absurd rfl h
  | cons a t ih =>
    cases t with
    | nil => rfl
    | cons b t2 =>
      have hlen : (a :: b :: t2).length - 1 = ((b :: t2).length - 1) + 1 := by
        simp
      rw [hlen, List.drop_succ_cons, ih (by simp)]
      simp [List.getLastD_cons]

/-- Python `l[-200:]` is the reversed 200-prefix of the reversed list. -/
theorem drop_length_sub_eq_reverse_take (l : List ℚ) (n : ℕ) :
    l.drop (l.length - n) = (l.reverse.take n).reverse :=
  List.rtake_eq_reverse_take_reverse l n

/-- C8: `stability_factor` on an empty list returns the empty list and
factor `-1`; on a non-empty list it returns the culled list obtained by
keeping the last 200 entries, dropping the final entry, retaining only
entries with timestamp at least `now - window`, then re-appending the
final entry, with factor `1 / len(culled)`; the culled length is at
least `1` and at most `min 200 (input length)`. -/
theorem c8_stability_factor_culling (now window : ℚ) (times : List ℚ)
    (h : times ≠ []) :
    HostManager.stability_factor now [] window = ([], -1) ∧
    HostManager.stability_factor now times window =
      (culledSpec now window times, 1 / ((culledSpec now window times).length : ℚ)) ∧
    1 ≤ (culledSpec now window times).length ∧
    (culledSpec now window times).length ≤ min 200 times.length := by
  refine ⟨rfl, ?_, ?_, ?_⟩
  · unfold HostManager.stability_factor culledSpec
    rw [if_neg (by simpa using h), drop_length_sub_eq_reverse_take,
      drop_length_sub_one h]
  · simp [culledSpec]
  · have h1 : ((times.reverse.take 200).reverse.dropLast.filter
        (fun t => now - window ≤ t)).length ≤
        (times.reverse.take 200).reverse.dropLast.length :=
      List.length_filter_le _ _
    have h2 : (times.reverse.take 200).reverse.dropLast.length =
        min 200 times.length - 1 := by
      simp
    have h3 : 1 ≤ min 200 times.length :=
      le_min (by norm_num) (List.length_pos.mpr h)
    simp only [culledSpec, List.length_append, List.length_cons, List.length_nil]
    omega

/-- Witness for C8 at `times = [5, 10]`, `now = 10`, `window = 120`. -/
theorem c8_stability_factor_culling_witness :
    HostManager.stability_factor 10 [] 120 = ([], -1) ∧
    HostManager.stability_factor 10 [5, 10] 120 =
      (culledSpec 10 120 [5, 10], 1 / ((culledSpec 10 120 [5, 10]).length : ℚ)) ∧
    1 ≤ (culledSpec 10 120 [5, 10]).length ∧
    (culledSpec 10 120 [5, 10]).length ≤ min 200 ([5, 10] : List ℚ).length :=
  c8_stability_factor_culling 10 120 [5, 10] (by decide)

/-- Every element of the seeded summary carries the defaults:
`running = false`, `exit_code = 127`, `container_found = false`. -/
theorem seedSummary_mem {cf : String} {services : List String}
    {p : String × Observation} (hp : p ∈ HostManager.seedSummary cf services) :
    p.2 = { service := p.1, running := false, exit_code := 127,
            container_found := false, compose_file := cf } := by
  unfold HostManager.seedSummary at hp
  rw [List.mem_map] at hp
  obtain ⟨k, _, rfl⟩ := hp
  rfl

/-- Elements after one inspect update: untouched, or the update of an
element whose key is the inspected service. -/
theorem applyInspect_mem {s s2 : List (String × Observation)} {i : InspectInfo}
    (h : HostManager.applyInspect s i = .ok s2) :
    ∀ p ∈ s2, p ∈ s ∨
      ∃ q ∈ s, q.1 = i.service ∧
        p = (q.1, { q.2 with running := i.running, exit_code := i.exitCode.getD 127,
                             container_found := true }) := by
  intro p hp
  unfold HostManager.applyInspect at h
  split at h
  · cases h
  split at h
  · cases h
  split at h
  · cases h
  cases h
  rw [List.mem_map] at hp
  obtain ⟨q, hq, hfq⟩ := hp
  by_cases hqi : q.1 = i.service
  · right
    refine ⟨q, hq, hqi, ?_⟩
    rw [← hfq, if_pos hqi]
  · left
    rwa [← hfq, if_neg hqi]

/-- Elements of the summary after the inspect loop succeed: each is
either an untouched element of the initial summary or the update of an
initial element by some processed `InspectInfo` targeting its key. -/
theorem inspectLoop_mem {inspects : List InspectInfo}
    {s m : List (String × Observation)}
    (hm : HostManager.inspectLoop s inspects = .ok m) :
    ∀ p ∈ m, p ∈ s ∨
      ∃ i ∈ inspects, i.service = p.1 ∧
        p.2.running = i.running ∧ p.2.exit_code = i.exitCode.getD 127 ∧
        p.2.container_found = true ∧
        ∃ q ∈ s, q.1 = p.1 ∧ p.2.service = q.2.service ∧
          p.2.compose_file = q.2.compose_file := by
  induction inspects generalizing s with
  | nil =>
    intro p hp
    rw [HostManager.inspectLoop] at hm
    cases hm
    exact Or.inl hp
  | cons i rest ih =>
    rw [HostManager.inspectLoop] at hm
    intro p hp
    rcases hs2 : HostManager.applyInspect s i with e | s2 <;> rw [hs2] at hm
    · cases hm
    rcases ih hm p hp with hp2 | ⟨i2, hi2, hsvc, hrun, hec, hcf, q, hq, hkey, hsv, hcmp⟩
    · rcases applyInspect_mem hs2 p hp2 with hps | ⟨q, hq, hqi, rfl⟩
      · exact Or.inl hps
      · exact Or.inr ⟨i, List.mem_cons_self i rest, by rw [hqi], rfl, rfl, rfl,
          q, hq, rfl, rfl, rfl⟩
    · rcases applyInspect_mem hs2 q hq with hqs | ⟨q0, hq0, _, rfl⟩
      · exact Or.inr ⟨i2, List.mem_cons_of_mem i hi2, hsvc, hrun, hec, hcf,
          q, hqs, hkey, hsv, hcmp⟩
      · exact Or.inr ⟨i2, List.mem_cons_of_mem i hi2, hsvc, hrun, hec, hcf,
          q0, hq0, hkey, by simpa using hsv, by simpa using hcmp⟩

/-- C9: every value in the mapping returned by `parse_docker_state` has
the `Observation` fields, its `compose_file` is the input path, its
`service` is its key, and `exit_code` is `127` whenever no container was
found for the service or whenever no inspect response for the service
carried an `ExitCode` field. -/
theorem c9_parse_docker_state_exit_codes
    (cf : String) (services : List String) (psCode : Int)
    (inspects : List InspectInfo) (m : List (String × Observation))
    (hm : HostManager.parse_docker_state cf services psCode inspects = .ok m) :
    ∀ p ∈ m,
      p.2.compose_file = cf ∧ p.2.service = p.1 ∧
      (p.2.container_found = false → p.2.exit_code = 127) ∧
      ((∀ i ∈ inspects, i.service = p.1 → i.exitCode = none) →
        p.2.exit_code = 127) := by
  intro p hp
  unfold HostManager.parse_docker_state at hm
  split at hm
  · cases hm
  rcases inspectLoop_mem hm p hp with hps | ⟨i, hi, hsvc, _, hec, hcf, q, hq, hkey, hsv, hcmp⟩
  · have h0 := seedSummary_mem hps
    refine ⟨by rw [h0], by rw [h0], fun _ => by rw [h0], fun _ => by rw [h0]⟩
  · have h0 := seedSummary_mem hq
    refine ⟨?_, ?_, ?_, ?_⟩
    · rw [hcmp, h0]
    · rw [hsv, h0, hkey]
    · intro hf
      rw [hcf] at hf
      cases hf
    · intro hall
      rw [hec, hall i hi hsvc]
      rfl

/-- Witness for C9: one declared service, one inspect response with no
`ExitCode` field. -/
theorem c9_parse_docker_state_exit_codes_witness :
    ({ service := "svc", running := true, exit_code := 127, container_found := true,
       compose_file := "dc.yaml" } : Observation).compose_file = "dc.yaml" ∧
    ({ service := "svc", running := true, exit_code := 127, container_found := true,
       compose_file := "dc.yaml" } : Observation).service = "svc" ∧
    (({ service := "svc", running := true, exit_code := 127, container_found := true,
        compose_file := "dc.yaml" } : Observation).container_found = false →
      ({ service := "svc", running := true, exit_code := 127, container_found := true,
         compose_file := "dc.yaml" } : Observation).exit_code = 127) ∧
    ((∀ i ∈ [({ service := "svc", code := 0, samefile := true, running := true,
                exitCode := none } : InspectInfo)], i.service = "svc" → i.exitCode = none) →
      ({ service := "svc", running := true, exit_code := 127, container_found := true,
         compose_file := "dc.yaml" } : Observation).exit_code = 127) :=
  c9_parse_docker_state_exit_codes "dc.yaml" ["svc"] 0
    [{ service := "svc", code := 0, samefile := true, running := true, exitCode := none }]
    [("svc", { service := "svc", running := true, exit_code := 127, container_found := true,
               compose_file := "dc.yaml" })]
    rfl
    ("svc", { service := "svc", running := true, exit_code := 127, container_found := true,
              compose_file := "dc.yaml" })
    (by decide)

/-- Counterexample to C2 as stated: in `wait_start` with `prot = None`
and `now < at` (here `now = 0`, `at = 10`) the returned Decision's sleep
is not `at - now = 10`: the `host_manager` variant returns no sleep at
all. -/
theorem c2_sleep_counterexample :
    (HostManager.resolve_child_state 0
        { baseRec with target_state := "up", next_action := "wait_start", at' := 10 }).map
        (fun x => x.1.sleep) = some none ∧
    (some none : Option (Option ℚ)) ≠ some (some (10 - 0)) := by
  exact ⟨by decide, by decide⟩

/-- C2 (amended): in state `wait_start`: for `prot` non-null the machine
emits `Launched <full_name>` and moves to `up`; for `prot = None` with
`now ≥ at` it emits the launch-not-detected message, moves to `start_at`
and sets `at = now + 5`; for `prot = None` with `now < at` the deadline
is not fed into the Decision's sleep: the `host_manager` Decision carries
no sleep and the `host_master` Decision carries the default `1`. -/
theorem c2_wait_start_behaviour (now : ℚ) (db : Record)
    (h : db.next_action = "wait_start") :
    (∀ p, db.prot = some p →
      HostManager.resolve_child_state now db =
        some ({ noAction with messages := ["Launched " ++ db.full_name] },
              { db with next_action := "up" })) ∧
    (db.prot = none → db.at' ≤ now →
      HostManager.resolve_child_state now db =
        some ({ noAction with
                  messages := ["Launch not detected for " ++ db.full_name ++
                               "!  Will retry."] },
              { db with next_action := "start_at", at' := now + 5 })) ∧
    (db.prot = none → now < db.at' →
      HostManager.resolve_child_state now db = some (noAction, db)) ∧
    (db.prot = none → now < db.at' →
      HostMaster.resolve_child_state now db =
        some ({ noAction with sleep := some 1 }, db)) := by
  refine ⟨?_, ?_, ?_, ?_⟩
  · intro p hp
    simp [HostManager.resolve_child_state, h, hp]
  · intro hp hle
    simp [HostManager.resolve_child_state, h, hp, hle]
  · intro hp hlt
    simp [HostManager.resolve_child_state, h, hp, not_le.mpr hlt]
  · intro hp hlt
    simp [HostMaster.resolve_child_state, h, hp, not_le.mpr hlt]

/-- Witness for C2 at a concrete `wait_start` record with `prot = None`
and an unreached deadline. -/
theorem c2_wait_start_behaviour_witness :
    HostMaster.resolve_child_state 0 { baseRec with next_action := "wait_start", at' := 10 } =
      some ({ noAction with sleep := some 1 },
            { baseRec with next_action := "wait_start", at' := 10 }) :=
  (c2_wait_start_behaviour 0 { baseRec with next_action := "wait_start", at' := 10 }
    rfl).2.2.2 rfl (by norm_num)

/-- Counterexample to C7 as stated: in `wait_dead` with a null exit code
and `now < at` (here `now = 0`, `at = 5`) the `host_master` variant
requests sleep `1`, not `at - now = 5`. -/
theorem c7_sleep_counterexample :
    HostMaster.resolve_child_state 0
        { baseRec with next_action := "wait_dead", at' := 5, prot := some aliveProt } =
      some ({ noAction with sleep := some 1 },
            { baseRec with next_action := "wait_dead", at' := 5, prot := some aliveProt }) ∧
    (some (1 : ℚ) : Option ℚ) ≠ some (5 - 0) := by
  constructor
  · norm_num [HostMaster.resolve_child_state, baseRec, aliveProt, noAction]
    decide
  · norm_num

/-- C7 (amended): in state `wait_dead`: a record with `prot = None` is
treated as exit code `0` and moves to `down` in the same call; a null
exit code with `now ≥ at` emits the refused-to-die message and forces
`down`; a null exit code with `now < at` stays in `wait_dead`, the
`host_manager` Decision requesting `sleep = at - now` while the
`host_master` Decision requests `min 1 (at - now)`. -/
theorem c7_wait_dead_behaviour (now : ℚ) (db : Record)
    (h : db.next_action = "wait_dead") :
    (db.prot = none →
      HostManager.resolve_child_state now db =
        some (noAction, { db with next_action := "down" }) ∧
      HostMaster.resolve_child_state now db =
        some ({ noAction with sleep := some 1 }, { db with next_action := "down" })) ∧
    (∀ p, db.prot = some p → p.status.1 = none → db.at' ≤ now →
      HostManager.resolve_child_state now db =
        some ({ noAction with
                  messages := ["Agent instance " ++ db.full_name ++ " refused to die."] },
              { db with next_action := "down" }) ∧
      HostMaster.resolve_child_state now db =
        some ({ noAction with
                  messages := ["Agent instance " ++ db.full_name ++ " refused to die."],
                  sleep := some 1 },
              { db with next_action := "down" })) ∧
    (∀ p, db.prot = some p → p.status.1 = none → now < db.at' →
      HostManager.resolve_child_state now db =
        some ({ noAction with sleep := some (db.at' - now) }, db) ∧
      HostMaster.resolve_child_state now db =
        some ({ noAction with sleep := some (min 1 (db.at' - now)) }, db)) := by
  refine ⟨?_, ?_, ?_⟩
  · intro hp
    constructor
    · simp [HostManager.resolve_child_state, h, hp]
    · simp [HostMaster.resolve_child_state, h, hp]
  · intro p hp hstat hle
    constructor
    · simp [HostManager.resolve_child_state, h, hp, hstat, hle]
    · simp [HostMaster.resolve_child_state, h, hp, hstat, hle]
  · intro p hp hstat hlt
    constructor
    · simp [HostManager.resolve_child_state, h, hp, hstat, not_le.mpr hlt]
    · simp [HostMaster.resolve_child_state, h, hp, hstat, not_le.mpr hlt]

/-- Witness for C7 at a concrete `wait_dead` record with `prot = None`. -/
theorem c7_wait_dead_behaviour_witness :
    HostManager.resolve_child_state 0 { baseRec with next_action := "wait_dead" } =
      some (noAction, { baseRec with next_action := "down" }) ∧
    HostMaster.resolve_child_state 0 { baseRec with next_action := "wait_dead" } =
      some ({ noAction with sleep := some 1 },
            { baseRec with next_action := "down" }) :=
  (c7_wait_dead_behaviour 0 { baseRec with next_action := "wait_dead" } rfl).1 rfl

/-- Counterexample to C3 as stated: the record with `next_action = up`,
`target_state = up` and `prot = None` satisfies the §3.1 record
invariants (`prot` may be `None` when `next_action = up`), yet both
variants of `resolve_child_state` raise `AttributeError` reading
`prot.status` on `None` (embedded as `none`) instead of returning a
Decision. -/
theorem c3_exception_counterexample :
    HostManager.resolve_child_state 0
      { baseRec with target_state := "up", next_action := "up" } = none ∧
    HostMaster.resolve_child_state 0
      { baseRec with target_state := "up", next_action := "up" } = none := by
  exact ⟨by decide, by decide⟩

/-- C3 (amended): `resolve_child_state` evaluates totally and returns a
Decision for every record, provided `prot` is non-null whenever
`next_action = up` with `target_state = up`, and any stderr buffer
carried by the executor is empty (the `host_manager` stderr attachment
raises `TypeError` on any non-empty buffer). -/
theorem c3_totality (now : ℚ) (db : Record)
    (hup : db.next_action = "up" → db.target_state = "up" → db.prot ≠ none)
    (hlines : ∀ p chunks, db.prot = some p → p.lines = some chunks → chunks = []) :
    (HostManager.resolve_child_state now db).isSome = true ∧
    (HostMaster.resolve_child_state now db).isSome = true := by
  constructor <;>
  · first
    | unfold HostManager.resolve_child_state
    | unfold HostMaster.resolve_child_state
    repeat' split
    all_goals
      first
      | rfl
      | exact absurd (by assumption) (hup (by assumption) (by assumption))
      | · obtain rfl := hlines _ _ (by assumption) (by assumption)
          simp_all [stderrAttachment, joinStderr]

/-- Witness for C3 at the concrete idle record. -/
theorem c3_totality_witness :
    (HostManager.resolve_child_state 0 baseRec).isSome = true ∧
    (HostMaster.resolve_child_state 0 baseRec).isSome = true :=
  c3_totality 0 baseRec (fun _ h => absurd h (by decide))
    (fun p _ hp _ => by simp [baseRec] at hp)

/-- Counterexample to C4 as stated: with `target_state = down`,
`next_action = down` and a live `prot`, the `host_manager` variant
mutates `target_state` to `"up"`. -/
theorem c4_target_flip_counterexample :
    (HostManager.resolve_child_state 0 { baseRec with prot := some aliveProt }).map
        (fun x => x.2.target_state) = some "up" ∧
    ({ baseRec with prot := some aliveProt } : Record).target_state = "down" ∧
    "up" ≠ "down" := by
  exact ⟨by decide, by decide, by decide⟩

/-- C4 (amended): `resolve_child_state` leaves `target_state` unchanged
except in the `host_manager` unexpected-session case — `next_action =
down`, `target_state = down`, `prot` present with a null exit code —
where it flips it to `"up"`; the `host_master` variant never changes
it. -/
theorem c4_target_state_frame :
    (∀ (now : ℚ) (db : Record) (a : Actions) (r : Record),
       HostManager.resolve_child_state now db = some (a, r) →
       r.target_state = db.target_state ∨
         (db.next_action = "down" ∧ db.target_state = "down" ∧
          (∃ p, db.prot = some p ∧ p.status.1 = none) ∧ r.target_state = "up")) ∧
    (∀ (now : ℚ) (db : Record) (a : Actions) (r : Record),
       HostMaster.resolve_child_state now db = some (a, r) →
       r.target_state = db.target_state) := by
  constructor <;>
  · intro now db a r h
    first
    | unfold HostManager.resolve_child_state at h
    | unfold HostMaster.resolve_child_state at h
    repeat' split at h
    all_goals
      first
      | · rw [Option.some.injEq, Prod.mk.injEq] at h
          obtain ⟨rfl, rfl⟩ := h
          first
          | exact Or.inl rfl
          | rfl
          | exact Or.inr ⟨by assumption, by assumption,
              ⟨_, by assumption, by assumption⟩, rfl⟩
      | exact absurd h (by simp)

/-- Witness for C4 at the concrete idle record. -/
theorem c4_target_state_frame_witness :
    baseRec.target_state = baseRec.target_state ∨
      (baseRec.next_action = "down" ∧ baseRec.target_state = "down" ∧
       (∃ p, baseRec.prot = some p ∧ p.status.1 = none) ∧
       baseRec.target_state = "up") :=
  c4_target_state_frame.1 0 baseRec noAction baseRec (by decide)

/-! ### Per-branch characterisations of one `host_manager` tick -/

theorem hmStep_wait_start_some {now : ℚ} {db : Record} {p : Prot}
    (h : db.next_action = "wait_start") (hp : db.prot = some p) :
    HostManager.stepR now db = some { db with next_action := "up" } := by
  simp [HostManager.stepR, HostManager.resolve_child_state, h, hp]

theorem hmStep_wait_start_none_late {now : ℚ} {db : Record}
    (h : db.next_action = "wait_start") (hp : db.prot = none) (hle : db.at' ≤ now) :
    HostManager.stepR now db = some { db with next_action := "start_at", at' := now + 5 } := by
  simp [HostManager.stepR, HostManager.resolve_child_state, h, hp, hle]

theorem hmStep_wait_start_none_early {now : ℚ} {db : Record}
    (h : db.next_action = "wait_start") (hp : db.prot = none) (hlt : now < db.at') :
    HostManager.stepR now db = some db := by
  simp [HostManager.stepR, HostManager.resolve_child_state, h, hp, not_le.mpr hlt]

theorem hmStep_wait_dead_none {now : ℚ} {db : Record}
    (h : db.next_action = "wait_dead") (hp : db.prot = none) :
    HostManager.stepR now db = some { db with next_action := "down" } := by
  simp [HostManager.stepR, HostManager.resolve_child_state, h, hp]

theorem hmStep_wait_dead_exited {now : ℚ} {db : Record} {p : Prot} {c : Int}
    (h : db.next_action = "wait_dead") (hp : db.prot = some p)
    (hs : p.status.1 = some c) :
    HostManager.stepR now db = some { db with next_action := "down" } := by
  simp [HostManager.stepR, HostManager.resolve_child_state, h, hp, hs]

theorem hmStep_wait_dead_alive_late {now : ℚ} {db : Record} {p : Prot}
    (h : db.next_action = "wait_dead") (hp : db.prot = some p)
    (hs : p.status.1 = none) (hle : db.at' ≤ now) :
    HostManager.stepR now db = some { db with next_action := "down" } := by
  simp [HostManager.stepR, HostManager.resolve_child_state, h, hp, hs, hle]

theorem hmStep_wait_dead_alive_early {now : ℚ} {db : Record} {p : Prot}
    (h : db.next_action = "wait_dead") (hp : db.prot = some p)
    (hs : p.status.1 = none) (hlt : now < db.at') :
    HostManager.stepR now db = some db := by
  simp [HostManager.stepR, HostManager.resolve_child_state, h, hp, hs, not_le.mpr hlt]

theorem hmStep_start_at_late {now : ℚ} {db : Record}
    (h : db.next_action = "start_at") (ht : db.target_state = "up") (hle : db.at' ≤ now) :
    HostManager.stepR now db = some { db with next_action := "start" } := by
  simp [HostManager.stepR, HostManager.resolve_child_state, h, ht, hle]

theorem hmStep_start_at_early {now : ℚ} {db : Record}
    (h : db.next_action = "start_at") (ht : db.target_state = "up") (hlt : now < db.at') :
    HostManager.stepR now db = some db := by
  simp [HostManager.stepR, HostManager.resolve_child_state, h, ht, not_le.mpr hlt]

theorem hmStep_start_no_script {now : ℚ} {db : Record}
    (h : db.next_action = "start") (ht : db.target_state = "up")
    (hs : db.agent_script = none) :
    HostManager.stepR now db = some { db with next_action := "down" } := by
  simp [HostManager.stepR, HostManager.resolve_child_state, h, ht, hs]

theorem hmStep_start_script {now : ℚ} {db : Record} {s : String}
    (h : db.next_action = "start") (ht : db.target_state = "up")
    (hs : db.agent_script = some s) :
    HostManager.stepR now db =
      some { db with prot := none, next_action := "wait_start", at' := now + 1,
                     start_times := db.start_times ++ [now] } := by
  simp [HostManager.stepR, HostManager.resolve_child_state, h, ht, hs]

theorem hmStep_up_running {now : ℚ} {db : Record} {p : Prot}
    (h : db.next_action = "up") (ht : db.target_state = "up")
    (hp : db.prot = some p) (hs : p.status.1 = none) :
    HostManager.stepR now db = some db := by
  simp [HostManager.stepR, HostManager.resolve_child_state, h, ht, hp, hs]

theorem hmStep_up_exited_no_lines {now : ℚ} {db : Record} {p : Prot} {c : Int}
    (h : db.next_action = "up") (ht : db.target_state = "up")
    (hp : db.prot = some p) (hs : p.status.1 = some c) (hl : p.lines = none) :
    HostManager.stepR now db =
      some { db with next_action := "start_at", at' := now + 3 } := by
  simp [HostManager.stepR, HostManager.resolve_child_state, h, ht, hp, hs, hl]

theorem hmStep_up_exited_empty_lines {now : ℚ} {db : Record} {p : Prot} {c : Int}
    (h : db.next_action = "up") (ht : db.target_state = "up")
    (hp : db.prot = some p) (hs : p.status.1 = some c) (hl : p.lines = some []) :
    HostManager.stepR now db =
      some { db with next_action := "start_at", at' := now + 3 } := by
  simp [HostManager.stepR, HostManager.resolve_child_state, stderrAttachment, joinStderr,
    h, ht, hp, hs, hl]

theorem hmStep_up_prot_none {now : ℚ} {db : Record}
    (h : db.next_action = "up") (ht : db.target_state = "up") (hp : db.prot = none) :
    HostManager.stepR now db = none := by
  simp [HostManager.stepR, HostManager.resolve_child_state, h, ht, hp]

/-- `'\n'.join` over a non-empty chunk buffer raises, whether or not the
buffer is trimmed. -/
theorem stderrAttachment_cons (fn : String) (c : List String) (cs : List (List String)) :
    stderrAttachment fn (c :: cs) = none := by
  unfold stderrAttachment
  split
  · rename_i hlen
    have hne : (c :: cs).drop ((c :: cs).length - 20) ≠ [] := by
      intro hcon
      have hlen2 := congrArg List.length hcon
      rw [List.length_drop] at hlen2
      simp only [List.length_nil] at hlen2
      omega
    cases hd : (c :: cs).drop ((c :: cs).length - 20) with
    | nil => exact absurd hd hne
    | cons d ds => rfl
  · rfl

theorem hmStep_up_exited_lines {now : ℚ} {db : Record} {p : Prot} {c : Int}
    {ch : List String} {chs : List (List String)}
    (h : db.next_action = "up") (ht : db.target_state = "up")
    (hp : db.prot = some p) (hs : p.status.1 = some c) (hl : p.lines = some (ch :: chs)) :
    HostManager.stepR now db = none := by
  simp [HostManager.stepR, HostManager.resolve_child_state, h, ht, hp, hs, hl,
    stderrAttachment_cons]

theorem hmStep_up_other {now : ℚ} {db : Record}
    (h1 : ¬db.next_action = "wait_start") (h2 : ¬db.next_action = "wait_dead")
    (h3 : ¬db.next_action = "start_at") (h4 : ¬db.next_action = "start")
    (h5 : ¬db.next_action = "up") (ht : db.target_state = "up") :
    HostManager.stepR now db = some { db with next_action := "start" } := by
  simp [HostManager.stepR, HostManager.resolve_child_state, h1, h2, h3, h4, h5, ht]

theorem hmStep_down_down_none {now : ℚ} {db : Record}
    (h : db.next_action = "down") (ht : db.target_state = "down") (hp : db.prot = none) :
    HostManager.stepR now db = some db := by
  simp [HostManager.stepR, HostManager.resolve_child_state, h, ht, hp]

theorem hmStep_down_down_exited {now : ℚ} {db : Record} {p : Prot} {c : Int}
    (h : db.next_action = "down") (ht : db.target_state = "down")
    (hp : db.prot = some p) (hs : p.status.1 = some c) :
    HostManager.stepR now db = some db := by
  simp [HostManager.stepR, HostManager.resolve_child_state, h, ht, hp, hs]

theorem hmStep_down_down_alive {now : ℚ} {db : Record} {p : Prot}
    (h : db.next_action = "down") (ht : db.target_state = "down")
    (hp : db.prot = some p) (hs : p.status.1 = none) :
    HostManager.stepR now db = some { db with target_state := "up" } := by
  simp [HostManager.stepR, HostManager.resolve_child_state, h, ht, hp, hs]

theorem hmStep_down_up {now : ℚ} {db : Record}
    (h : db.next_action = "up") (ht : db.target_state = "down") :
    HostManager.stepR now db =
      some { db with next_action := "wait_dead", at' := now + 5 } := by
  simp [HostManager.stepR, HostManager.resolve_child_state, h, ht]

theorem hmStep_down_other {now : ℚ} {db : Record}
    (h1 : ¬db.next_action = "wait_start") (h2 : ¬db.next_action = "wait_dead")
    (h3 : ¬db.next_action = "down") (h4 : ¬db.next_action = "up")
    (ht : db.target_state = "down") :
    HostManager.stepR now db = some { db with next_action := "down" } := by
  simp [HostManager.stepR, HostManager.resolve_child_state, h1, h2, h3, h4, ht]

theorem hmStep_fallback {now : ℚ} {db : Record}
    (h1 : ¬db.next_action = "wait_start") (h2 : ¬db.next_action = "wait_dead")
    (t1 : ¬db.target_state = "up") (t2 : ¬db.target_state = "down") :
    HostManager.stepR now db = some db := by
  simp [HostManager.stepR, HostManager.resolve_child_state, h1, h2, t1, t2]

/-- Counterexample to C6 as stated: with `target_state = down`,
`prot = None` and `next_action = wait_start` (an enumerated state) with
an unreached launch-detection deadline, two ticks leave the record in
`wait_start`, not at a `down` fixed point. -/
theorem c6_wait_start_counterexample :
    ((HostManager.stepR 0 { baseRec with next_action := "wait_start", at' := 100 }).bind
        (HostManager.stepR 0)) =
      some { baseRec with next_action := "wait_start", at' := 100 } ∧
    ({ baseRec with next_action := "wait_start", at' := 100 } : Record).next_action ≠
      "down" := by
  exact ⟨by decide, by decide⟩

/-- C6 (amended): for every record with `target_state = down` and no
live `prot` (`prot = None` or an observed non-null exit code), starting
from any enumerated `next_action` other than `wait_start` —
`down`, `start_at`, `start`, `up`, `wait_dead` — iterating the
`host_manager` state machine reaches, within at most two ticks, a record
fixed point with `next_action = down`.  (From `wait_start` the machine
first waits out the launch-detection deadline, or passes through `up`
when `prot` is non-null, so `down` can take three ticks or more.) -/
theorem c6_down_reconciliation (now : ℚ) (db : Record)
    (htgt : db.target_state = "down")
    (hdead : db.prot = none ∨ ∃ p c, db.prot = some p ∧ p.status.1 = some c)
    (hna : db.next_action = "down" ∨ db.next_action = "start_at" ∨
           db.next_action = "start" ∨ db.next_action = "up" ∨
           db.next_action = "wait_dead") :
    ∃ r1 r2, HostManager.stepR now db = some r1 ∧ HostManager.stepR now r1 = some r2 ∧
      r2.next_action = "down" ∧ HostManager.stepR now r2 = some r2 := by
  rcases hna with h | h | h | h | h
  · rcases hdead with hp | ⟨p, c, hp, hs⟩
    · exact ⟨db, db, hmStep_down_down_none h htgt hp, hmStep_down_down_none h htgt hp,
        h, hmStep_down_down_none h htgt hp⟩
    · exact ⟨db, db, hmStep_down_down_exited h htgt hp hs,
        hmStep_down_down_exited h htgt hp hs, h, hmStep_down_down_exited h htgt hp hs⟩
  · have h1 := @hmStep_down_other now db (by simp [h]) (by simp [h])
      (by simp [h]) (by simp [h]) htgt
    rcases hdead with hp | ⟨p, c, hp, hs⟩
    · exact ⟨_, _, h1, hmStep_down_down_none rfl htgt hp, rfl,
        hmStep_down_down_none rfl htgt hp⟩
    · exact ⟨_, _, h1, hmStep_down_down_exited rfl htgt hp hs, rfl,
        hmStep_down_down_exited rfl htgt hp hs⟩
  · have h1 := @hmStep_down_other now db (by simp [h]) (by simp [h])
      (by simp [h]) (by simp [h]) htgt
    rcases hdead with hp | ⟨p, c, hp, hs⟩
    · exact ⟨_, _, h1, hmStep_down_down_none rfl htgt hp, rfl,
        hmStep_down_down_none rfl htgt hp⟩
    · exact ⟨_, _, h1, hmStep_down_down_exited rfl htgt hp hs, rfl,
        hmStep_down_down_exited rfl htgt hp hs⟩
  · have h1 := @hmStep_down_up now db h htgt
    rcases hdead with hp | ⟨p, c, hp, hs⟩
    · exact ⟨_, _, h1,
        @hmStep_wait_dead_none now { db with next_action := "wait_dead", at' := now + 5 }
          rfl hp,
        rfl,
        @hmStep_down_down_none now { db with next_action := "down", at' := now + 5 }
          rfl htgt hp⟩
    · exact ⟨_, _, h1,
        @hmStep_wait_dead_exited now { db with next_action := "wait_dead", at' := now + 5 }
          p c rfl hp hs,
        rfl,
        @hmStep_down_down_exited now { db with next_action := "down", at' := now + 5 }
          p c rfl htgt hp hs⟩
  · rcases hdead with hp | ⟨p, c, hp, hs⟩
    · have h2 := @hmStep_down_down_none now { db with next_action := "down" }
        rfl htgt hp
      exact ⟨_, _, hmStep_wait_dead_none h hp, h2, rfl, h2⟩
    · have h2 := @hmStep_down_down_exited now { db with next_action := "down" }
        p c rfl htgt hp hs
      exact ⟨_, _, hmStep_wait_dead_exited h hp hs, h2, rfl, h2⟩

/-- Witness for C6 at a concrete record in state `up` with target
`down` and no executor. -/
theorem c6_down_reconciliation_witness :
    ∃ r1 r2, HostManager.stepR 0 { baseRec with next_action := "up" } = some r1 ∧
      HostManager.stepR 0 r1 = some r2 ∧ r2.next_action = "down" ∧
      HostManager.stepR 0 r2 = some r2 :=
  c6_down_reconciliation 0 { baseRec with next_action := "up" } rfl (Or.inl rfl)
    (Or.inr (Or.inr (Or.inr (Or.inl rfl))))

/-- Determinism of one tick: two step results from the same record
agree. -/
theorem step_det {now : ℚ} {db r s : Record}
    (h : HostManager.stepR now db = some r) (hS : HostManager.stepR now db = some s) :
    r = s :=
  Option.some_inj.mp (h.symm.trans hS)

/-- With the clock and external world frozen, four ticks of the
`host_manager` machine settle: the fifth tick exists, the sixth tick
returns to the fourth record, and the fourth record is a fixed point
(the fifth tick already returns it) unless the machine is in the
ConfigError oscillation — `target_state = up` with `agent_script =
None` — where `next_action` alternates between `start` and `down`. -/
theorem hm_settles_in_four (now : ℚ) (db r1 r2 r3 r4 : Record)
    (h1 : HostManager.stepR now db = some r1) (h2 : HostManager.stepR now r1 = some r2)
    (h3 : HostManager.stepR now r2 = some r3) (h4 : HostManager.stepR now r3 = some r4) :
    ∃ r5, HostManager.stepR now r4 = some r5 ∧ HostManager.stepR now r5 = some r4 ∧
      (r5 = r4 ∨
        (r4.target_state = "up" ∧ r4.agent_script = none ∧
         ((r4.next_action = "start" ∧ r5.next_action = "down") ∨
          (r4.next_action = "down" ∧ r5.next_action = "start")))) := by
  by_cases hws : db.next_action = "wait_start"
  · rcases hprot : db.prot with _ | p
    · -- wait_start, prot none
      by_cases hle : db.at' ≤ now
      · obtain rfl := step_det h1 (hmStep_wait_start_none_late hws hprot hle)
        by_cases htup : db.target_state = "up"
        · obtain rfl := step_det h2 (hmStep_start_at_early rfl htup
            (by show now < now + 5; linarith))
          obtain rfl := step_det h3 (hmStep_start_at_early rfl htup
            (by show now < now + 5; linarith))
          obtain rfl := step_det h4 (hmStep_start_at_early rfl htup
            (by show now < now + 5; linarith))
          exact ⟨_, hmStep_start_at_early rfl htup (by show now < now + 5; linarith),
            hmStep_start_at_early rfl htup (by show now < now + 5; linarith), Or.inl rfl⟩
        · by_cases htdown : db.target_state = "down"
          · obtain rfl := step_det h2 (hmStep_down_other
              (by show ¬("start_at" : String) = "wait_start"; decide)
              (by show ¬("start_at" : String) = "wait_dead"; decide)
              (by show ¬("start_at" : String) = "down"; decide)
              (by show ¬("start_at" : String) = "up"; decide) htdown)
            obtain rfl := step_det h3 (hmStep_down_down_none rfl htdown hprot)
            obtain rfl := step_det h4 (hmStep_down_down_none rfl htdown hprot)
            exact ⟨_, hmStep_down_down_none rfl htdown hprot,
              hmStep_down_down_none rfl htdown hprot, Or.inl rfl⟩
          · obtain rfl := step_det h2 (hmStep_fallback
              (by show ¬("start_at" : String) = "wait_start"; decide)
              (by show ¬("start_at" : String) = "wait_dead"; decide) htup htdown)
            obtain rfl := step_det h3 (hmStep_fallback
              (by show ¬("start_at" : String) = "wait_start"; decide)
              (by show ¬("start_at" : String) = "wait_dead"; decide) htup htdown)
            obtain rfl := step_det h4 (hmStep_fallback
              (by show ¬("start_at" : String) = "wait_start"; decide)
              (by show ¬("start_at" : String) = "wait_dead"; decide) htup htdown)
            exact ⟨_, hmStep_fallback
              (by show ¬("start_at" : String) = "wait_start"; decide)
              (by show ¬("start_at" : String) = "wait_dead"; decide) htup htdown,
              hmStep_fallback
              (by show ¬("start_at" : String) = "wait_start"; decide)
              (by show ¬("start_at" : String) = "wait_dead"; decide) htup htdown, Or.inl rfl⟩
      · obtain rfl := step_det h1 (hmStep_wait_start_none_early hws hprot (not_le.mp hle))
        obtain rfl := step_det h2 (hmStep_wait_start_none_early hws hprot (not_le.mp hle))
        obtain rfl := step_det h3 (hmStep_wait_start_none_early hws hprot (not_le.mp hle))
        obtain rfl := step_det h4 (hmStep_wait_start_none_early hws hprot (not_le.mp hle))
        exact ⟨_, hmStep_wait_start_none_early hws hprot (not_le.mp hle),
          hmStep_wait_start_none_early hws hprot (not_le.mp hle), Or.inl rfl⟩
    · -- wait_start, prot some p
      obtain rfl := step_det h1 (hmStep_wait_start_some hws hprot)
      by_cases htup : db.target_state = "up"
      · rcases hstat : p.status.1 with _ | c
        · obtain rfl := step_det h2 (hmStep_up_running rfl htup hprot hstat)
          obtain rfl := step_det h3 (hmStep_up_running rfl htup hprot hstat)
          obtain rfl := step_det h4 (hmStep_up_running rfl htup hprot hstat)
          exact ⟨_, hmStep_up_running rfl htup hprot hstat,
            hmStep_up_running rfl htup hprot hstat, Or.inl rfl⟩
        · rcases hlines : p.lines with _ | chunks
          · obtain rfl := step_det h2 (hmStep_up_exited_no_lines rfl htup hprot hstat hlines)
            obtain rfl := step_det h3 (hmStep_start_at_early rfl htup
              (by show now < now + 3; linarith))
            obtain rfl := step_det h4 (hmStep_start_at_early rfl htup
              (by show now < now + 3; linarith))
            exact ⟨_, hmStep_start_at_early rfl htup (by show now < now + 3; linarith),
              hmStep_start_at_early rfl htup (by show now < now + 3; linarith), Or.inl rfl⟩
          · cases chunks with
            | nil =>
              obtain rfl := step_det h2
                (hmStep_up_exited_empty_lines rfl htup hprot hstat hlines)
              obtain rfl := step_det h3 (hmStep_start_at_early rfl htup
                (by show now < now + 3; linarith))
              obtain rfl := step_det h4 (hmStep_start_at_early rfl htup
                (by show now < now + 3; linarith))
              exact ⟨_, hmStep_start_at_early rfl htup (by show now < now + 3; linarith),
                hmStep_start_at_early rfl htup (by show now < now + 3; linarith), Or.inl rfl⟩
            | cons ch chs =>
              have S := @hmStep_up_exited_lines now
                { db with next_action := "up" } p c ch chs rfl htup hprot hstat hlines
              rw [S] at h2
              exact Option.noConfusion h2
      · by_cases htdown : db.target_state = "down"
        · obtain rfl := step_det h2 (hmStep_down_up rfl htdown)
          rcases hstat : p.status.1 with _ | c
          · obtain rfl := step_det h3 (hmStep_wait_dead_alive_early rfl hprot hstat
              (by show now < now + 5; linarith))
            obtain rfl := step_det h4 (hmStep_wait_dead_alive_early rfl hprot hstat
              (by show now < now + 5; linarith))
            exact ⟨_, hmStep_wait_dead_alive_early rfl hprot hstat
              (by show now < now + 5; linarith),
              hmStep_wait_dead_alive_early rfl hprot hstat
              (by show now < now + 5; linarith), Or.inl rfl⟩
          · obtain rfl := step_det h3 (hmStep_wait_dead_exited rfl hprot hstat)
            obtain rfl := step_det h4 (hmStep_down_down_exited rfl htdown hprot hstat)
            exact ⟨_, hmStep_down_down_exited rfl htdown hprot hstat,
              hmStep_down_down_exited rfl htdown hprot hstat, Or.inl rfl⟩
        · obtain rfl := step_det h2 (hmStep_fallback
            (by show ¬("up" : String) = "wait_start"; decide)
            (by show ¬("up" : String) = "wait_dead"; decide) htup htdown)
          obtain rfl := step_det h3 (hmStep_fallback
            (by show ¬("up" : String) = "wait_start"; decide)
            (by show ¬("up" : String) = "wait_dead"; decide) htup htdown)
          obtain rfl := step_det h4 (hmStep_fallback
            (by show ¬("up" : String) = "wait_start"; decide)
            (by show ¬("up" : String) = "wait_dead"; decide) htup htdown)
          exact ⟨_, hmStep_fallback
            (by show ¬("up" : String) = "wait_start"; decide)
            (by show ¬("up" : String) = "wait_dead"; decide) htup htdown,
            hmStep_fallback
            (by show ¬("up" : String) = "wait_start"; decide)
            (by show ¬("up" : String) = "wait_dead"; decide) htup htdown, Or.inl rfl⟩
  · by_cases hwd : db.next_action = "wait_dead"
    · -- wait_dead
      rcases hprot : db.prot with _ | p
      · obtain rfl := step_det h1 (hmStep_wait_dead_none hwd hprot)
        by_cases htup : db.target_state = "up"
        · obtain rfl := step_det h2 (hmStep_up_other
            (by show ¬("down" : String) = "wait_start"; decide)
            (by show ¬("down" : String) = "wait_dead"; decide)
            (by show ¬("down" : String) = "start_at"; decide)
            (by show ¬("down" : String) = "start"; decide)
            (by show ¬("down" : String) = "up"; decide) htup)
          rcases hscript : db.agent_script with _ | s
          · obtain rfl := step_det h3 (hmStep_start_no_script rfl htup hscript)
            obtain rfl := step_det h4 (hmStep_up_other
              (by show ¬("down" : String) = "wait_start"; decide)
              (by show ¬("down" : String) = "wait_dead"; decide)
              (by show ¬("down" : String) = "start_at"; decide)
              (by show ¬("down" : String) = "start"; decide)
              (by show ¬("down" : String) = "up"; decide) htup)
            exact ⟨_, hmStep_start_no_script rfl htup hscript,
              hmStep_up_other
              (by show ¬("down" : String) = "wait_start"; decide)
              (by show ¬("down" : String) = "wait_dead"; decide)
              (by show ¬("down" : String) = "start_at"; decide)
              (by show ¬("down" : String) = "start"; decide)
              (by show ¬("down" : String) = "up"; decide) htup, Or.inr ⟨htup, hscript, Or.inl ⟨rfl, rfl⟩⟩⟩
          · obtain rfl := step_det h3 (hmStep_start_script rfl htup hscript)
            obtain rfl := step_det h4 (hmStep_wait_start_none_early rfl rfl
              (by show now < now + 1; linarith))
            exact ⟨_, hmStep_wait_start_none_early rfl rfl (by show now < now + 1; linarith),
              hmStep_wait_start_none_early rfl rfl (by show now < now + 1; linarith), Or.inl rfl⟩
        · by_cases htdown : db.target_state = "down"
          · obtain rfl := step_det h2 (hmStep_down_down_none rfl htdown hprot)
            obtain rfl := step_det h3 (hmStep_down_down_none rfl htdown hprot)
            obtain rfl := step_det h4 (hmStep_down_down_none rfl htdown hprot)
            exact ⟨_, hmStep_down_down_none rfl htdown hprot,
              hmStep_down_down_none rfl htdown hprot, Or.inl rfl⟩
          · obtain rfl := step_det h2 (hmStep_fallback
              (by show ¬("down" : String) = "wait_start"; decide)
              (by show ¬("down" : String) = "wait_dead"; decide) htup htdown)
            obtain rfl := step_det h3 (hmStep_fallback
              (by show ¬("down" : String) = "wait_start"; decide)
              (by show ¬("down" : String) = "wait_dead"; decide) htup htdown)
            obtain rfl := step_det h4 (hmStep_fallback
              (by show ¬("down" : String) = "wait_start"; decide)
              (by show ¬("down" : String) = "wait_dead"; decide) htup htdown)
            exact ⟨_, hmStep_fallback
              (by show ¬("down" : String) = "wait_start"; decide)
              (by show ¬("down" : String) = "wait_dead"; decide) htup htdown,
              hmStep_fallback
              (by show ¬("down" : String) = "wait_start"; decide)
              (by show ¬("down" : String) = "wait_dead"; decide) htup htdown, Or.inl rfl⟩
      · rcases hstat : p.status.1 with _ | c
        · -- wait_dead, prot alive
          by_cases hle : db.at' ≤ now
          · obtain rfl := step_det h1 (hmStep_wait_dead_alive_late hwd hprot hstat hle)
            by_cases htup : db.target_state = "up"
            · obtain rfl := step_det h2 (hmStep_up_other
                (by show ¬("down" : String) = "wait_start"; decide)
                (by show ¬("down" : String) = "wait_dead"; decide)
                (by show ¬("down" : String) = "start_at"; decide)
                (by show ¬("down" : String) = "start"; decide)
                (by show ¬("down" : String) = "up"; decide) htup)
              rcases hscript : db.agent_script with _ | s
              · obtain rfl := step_det h3 (hmStep_start_no_script rfl htup hscript)
                obtain rfl := step_det h4 (hmStep_up_other
                  (by show ¬("down" : String) = "wait_start"; decide)
                  (by show ¬("down" : String) = "wait_dead"; decide)
                  (by show ¬("down" : String) = "start_at"; decide)
                  (by show ¬("down" : String) = "start"; decide)
                  (by show ¬("down" : String) = "up"; decide) htup)
                exact ⟨_, hmStep_start_no_script rfl htup hscript,
                  hmStep_up_other
                  (by show ¬("down" : String) = "wait_start"; decide)
                  (by show ¬("down" : String) = "wait_dead"; decide)
                  (by show ¬("down" : String) = "start_at"; decide)
                  (by show ¬("down" : String) = "start"; decide)
                  (by show ¬("down" : String) = "up"; decide) htup, Or.inr ⟨htup, hscript, Or.inl ⟨rfl, rfl⟩⟩⟩
              · obtain rfl := step_det h3 (hmStep_start_script rfl htup hscript)
                obtain rfl := step_det h4 (hmStep_wait_start_none_early rfl rfl
                  (by show now < now + 1; linarith))
                exact ⟨_, hmStep_wait_start_none_early rfl rfl
                  (by show now < now + 1; linarith),
                  hmStep_wait_start_none_early rfl rfl
                  (by show now < now + 1; linarith), Or.inl rfl⟩
            · by_cases htdown : db.target_state = "down"
              · obtain rfl := step_det h2 (hmStep_down_down_alive rfl htdown hprot hstat)
                obtain rfl := step_det h3 (hmStep_up_other
                  (by show ¬("down" : String) = "wait_start"; decide)
                  (by show ¬("down" : String) = "wait_dead"; decide)
                  (by show ¬("down" : String) = "start_at"; decide)
                  (by show ¬("down" : String) = "start"; decide)
                  (by show ¬("down" : String) = "up"; decide) rfl)
                rcases hscript : db.agent_script with _ | s
                · obtain rfl := step_det h4 (hmStep_start_no_script rfl rfl hscript)
                  exact ⟨_, hmStep_up_other
                    (by show ¬("down" : String) = "wait_start"; decide)
                    (by show ¬("down" : String) = "wait_dead"; decide)
                    (by show ¬("down" : String) = "start_at"; decide)
                    (by show ¬("down" : String) = "start"; decide)
                    (by show ¬("down" : String) = "up"; decide) rfl,
                    hmStep_start_no_script rfl rfl hscript, Or.inr ⟨rfl, hscript, Or.inr ⟨rfl, rfl⟩⟩⟩
                · obtain rfl := step_det h4 (hmStep_start_script rfl rfl hscript)
                  exact ⟨_, hmStep_wait_start_none_early rfl rfl
                    (by show now < now + 1; linarith),
                    hmStep_wait_start_none_early rfl rfl
                    (by show now < now + 1; linarith), Or.inl rfl⟩
              · obtain rfl := step_det h2 (hmStep_fallback
                  (by show ¬("down" : String) = "wait_start"; decide)
                  (by show ¬("down" : String) = "wait_dead"; decide) htup htdown)
                obtain rfl := step_det h3 (hmStep_fallback
                  (by show ¬("down" : String) = "wait_start"; decide)
                  (by show ¬("down" : String) = "wait_dead"; decide) htup htdown)
                obtain rfl := step_det h4 (hmStep_fallback
                  (by show ¬("down" : String) = "wait_start"; decide)
                  (by show ¬("down" : String) = "wait_dead"; decide) htup htdown)
                exact ⟨_, hmStep_fallback
                  (by show ¬("down" : String) = "wait_start"; decide)
                  (by show ¬("down" : String) = "wait_dead"; decide) htup htdown,
                  hmStep_fallback
                  (by show ¬("down" : String) = "wait_start"; decide)
                  (by show ¬("down" : String) = "wait_dead"; decide) htup htdown, Or.inl rfl⟩
          · obtain rfl := step_det h1
              (hmStep_wait_dead_alive_early hwd hprot hstat (not_le.mp hle))
            obtain rfl := step_det h2
              (hmStep_wait_dead_alive_early hwd hprot hstat (not_le.mp hle))
            obtain rfl := step_det h3
              (hmStep_wait_dead_alive_early hwd hprot hstat (not_le.mp hle))
            obtain rfl := step_det h4
              (hmStep_wait_dead_alive_early hwd hprot hstat (not_le.mp hle))
            exact ⟨_, hmStep_wait_dead_alive_early hwd hprot hstat (not_le.mp hle),
              hmStep_wait_dead_alive_early hwd hprot hstat (not_le.mp hle), Or.inl rfl⟩
        · -- wait_dead, prot exited
          obtain rfl := step_det h1 (hmStep_wait_dead_exited hwd hprot hstat)
          by_cases htup : db.target_state = "up"
          · obtain rfl := step_det h2 (hmStep_up_other
              (by show ¬("down" : String) = "wait_start"; decide)
              (by show ¬("down" : String) = "wait_dead"; decide)
              (by show ¬("down" : String) = "start_at"; decide)
              (by show ¬("down" : String) = "start"; decide)
              (by show ¬("down" : String) = "up"; decide) htup)
            rcases hscript : db.agent_script with _ | s
            · obtain rfl := step_det h3 (hmStep_start_no_script rfl htup hscript)
              obtain rfl := step_det h4 (hmStep_up_other
                (by show ¬("down" : String) = "wait_start"; decide)
                (by show ¬("down" : String) = "wait_dead"; decide)
                (by show ¬("down" : String) = "start_at"; decide)
                (by show ¬("down" : String) = "start"; decide)
                (by show ¬("down" : String) = "up"; decide) htup)
              exact ⟨_, hmStep_start_no_script rfl htup hscript,
                hmStep_up_other
                (by show ¬("down" : String) = "wait_start"; decide)
                (by show ¬("down" : String) = "wait_dead"; decide)
                (by show ¬("down" : String) = "start_at"; decide)
                (by show ¬("down" : String) = "start"; decide)
                (by show ¬("down" : String) = "up"; decide) htup, Or.inr ⟨htup, hscript, Or.inl ⟨rfl, rfl⟩⟩⟩
            · obtain rfl := step_det h3 (hmStep_start_script rfl htup hscript)
              obtain rfl := step_det h4 (hmStep_wait_start_none_early rfl rfl
                (by show now < now + 1; linarith))
              exact ⟨_, hmStep_wait_start_none_early rfl rfl
                (by show now < now + 1; linarith),
                hmStep_wait_start_none_early rfl rfl
                (by show now < now + 1; linarith), Or.inl rfl⟩
          · by_cases htdown : db.target_state = "down"
            · obtain rfl := step_det h2 (hmStep_down_down_exited rfl htdown hprot hstat)
              obtain rfl := step_det h3 (hmStep_down_down_exited rfl htdown hprot hstat)
              obtain rfl := step_det h4 (hmStep_down_down_exited rfl htdown hprot hstat)
              exact ⟨_, hmStep_down_down_exited rfl htdown hprot hstat,
                hmStep_down_down_exited rfl htdown hprot hstat, Or.inl rfl⟩
            · obtain rfl := step_det h2 (hmStep_fallback
                (by show ¬("down" : String) = "wait_start"; decide)
                (by show ¬("down" : String) = "wait_dead"; decide) htup htdown)
              obtain rfl := step_det h3 (hmStep_fallback
                (by show ¬("down" : String) = "wait_start"; decide)
                (by show ¬("down" : String) = "wait_dead"; decide) htup htdown)
              obtain rfl := step_det h4 (hmStep_fallback
                (by show ¬("down" : String) = "wait_start"; decide)
                (by show ¬("down" : String) = "wait_dead"; decide) htup htdown)
              exact ⟨_, hmStep_fallback
                (by show ¬("down" : String) = "wait_start"; decide)
                (by show ¬("down" : String) = "wait_dead"; decide) htup htdown,
                hmStep_fallback
                (by show ¬("down" : String) = "wait_start"; decide)
                (by show ¬("down" : String) = "wait_dead"; decide) htup htdown, Or.inl rfl⟩
    · -- not transitional
      by_cases htup : db.target_state = "up"
      · by_cases hsa : db.next_action = "start_at"
        · by_cases hle : db.at' ≤ now
          · obtain rfl := step_det h1 (hmStep_start_at_late hsa htup hle)
            rcases hscript : db.agent_script with _ | s
            · obtain rfl := step_det h2 (hmStep_start_no_script rfl htup hscript)
              obtain rfl := step_det h3 (hmStep_up_other
                (by show ¬("down" : String) = "wait_start"; decide)
                (by show ¬("down" : String) = "wait_dead"; decide)
                (by show ¬("down" : String) = "start_at"; decide)
                (by show ¬("down" : String) = "start"; decide)
                (by show ¬("down" : String) = "up"; decide) htup)
              obtain rfl := step_det h4 (hmStep_start_no_script rfl htup hscript)
              exact ⟨_, hmStep_up_other
                (by show ¬("down" : String) = "wait_start"; decide)
                (by show ¬("down" : String) = "wait_dead"; decide)
                (by show ¬("down" : String) = "start_at"; decide)
                (by show ¬("down" : String) = "start"; decide)
                (by show ¬("down" : String) = "up"; decide) htup,
                hmStep_start_no_script rfl htup hscript, Or.inr ⟨htup, hscript, Or.inr ⟨rfl, rfl⟩⟩⟩
            · obtain rfl := step_det h2 (hmStep_start_script rfl htup hscript)
              obtain rfl := step_det h3 (hmStep_wait_start_none_early rfl rfl
                (by show now < now + 1; linarith))
              obtain rfl := step_det h4 (hmStep_wait_start_none_early rfl rfl
                (by show now < now + 1; linarith))
              exact ⟨_, hmStep_wait_start_none_early rfl rfl
                (by show now < now + 1; linarith),
                hmStep_wait_start_none_early rfl rfl
                (by show now < now + 1; linarith), Or.inl rfl⟩
          · obtain rfl := step_det h1 (hmStep_start_at_early hsa htup (not_le.mp hle))
            obtain rfl := step_det h2 (hmStep_start_at_early hsa htup (not_le.mp hle))
            obtain rfl := step_det h3 (hmStep_start_at_early hsa htup (not_le.mp hle))
            obtain rfl := step_det h4 (hmStep_start_at_early hsa htup (not_le.mp hle))
            exact ⟨_, hmStep_start_at_early hsa htup (not_le.mp hle),
              hmStep_start_at_early hsa htup (not_le.mp hle), Or.inl rfl⟩
        · by_cases hst : db.next_action = "start"
          · rcases hscript : db.agent_script with _ | s
            · obtain rfl := step_det h1 (hmStep_start_no_script hst htup hscript)
              obtain rfl := step_det h2 (hmStep_up_other
                (by show ¬("down" : String) = "wait_start"; decide)
                (by show ¬("down" : String) = "wait_dead"; decide)
                (by show ¬("down" : String) = "start_at"; decide)
                (by show ¬("down" : String) = "start"; decide)
                (by show ¬("down" : String) = "up"; decide) htup)
              obtain rfl := step_det h3 (hmStep_start_no_script rfl htup hscript)
              obtain rfl := step_det h4 (hmStep_up_other
                (by show ¬("down" : String) = "wait_start"; decide)
                (by show ¬("down" : String) = "wait_dead"; decide)
                (by show ¬("down" : String) = "start_at"; decide)
                (by show ¬("down" : String) = "start"; decide)
                (by show ¬("down" : String) = "up"; decide) htup)
              exact ⟨_, hmStep_start_no_script rfl htup hscript,
                hmStep_up_other
                (by show ¬("down" : String) = "wait_start"; decide)
                (by show ¬("down" : String) = "wait_dead"; decide)
                (by show ¬("down" : String) = "start_at"; decide)
                (by show ¬("down" : String) = "start"; decide)
                (by show ¬("down" : String) = "up"; decide) htup, Or.inr ⟨htup, hscript, Or.inl ⟨rfl, rfl⟩⟩⟩
            · obtain rfl := step_det h1 (hmStep_start_script hst htup hscript)
              obtain rfl := step_det h2 (hmStep_wait_start_none_early rfl rfl
                (by show now < now + 1; linarith))
              obtain rfl := step_det h3 (hmStep_wait_start_none_early rfl rfl
                (by show now < now + 1; linarith))
              obtain rfl := step_det h4 (hmStep_wait_start_none_early rfl rfl
                (by show now < now + 1; linarith))
              exact ⟨_, hmStep_wait_start_none_early rfl rfl
                (by show now < now + 1; linarith),
                hmStep_wait_start_none_early rfl rfl
                (by show now < now + 1; linarith), Or.inl rfl⟩
          · by_cases hup : db.next_action = "up"
            · rcases hprot : db.prot with _ | p
              · rw [hmStep_up_prot_none hup htup hprot] at h1
                exact Option.noConfusion h1
              · rcases hstat : p.status.1 with _ | c
                · obtain rfl := step_det h1 (hmStep_up_running hup htup hprot hstat)
                  obtain rfl := step_det h2 (hmStep_up_running hup htup hprot hstat)
                  obtain rfl := step_det h3 (hmStep_up_running hup htup hprot hstat)
                  obtain rfl := step_det h4 (hmStep_up_running hup htup hprot hstat)
                  exact ⟨_, hmStep_up_running hup htup hprot hstat,
                    hmStep_up_running hup htup hprot hstat, Or.inl rfl⟩
                · rcases hlines : p.lines with _ | chunks
                  · obtain rfl := step_det h1
                      (hmStep_up_exited_no_lines hup htup hprot hstat hlines)
                    obtain rfl := step_det h2 (hmStep_start_at_early rfl htup
                      (by show now < now + 3; linarith))
                    obtain rfl := step_det h3 (hmStep_start_at_early rfl htup
                      (by show now < now + 3; linarith))
                    obtain rfl := step_det h4 (hmStep_start_at_early rfl htup
                      (by show now < now + 3; linarith))
                    exact ⟨_, hmStep_start_at_early rfl htup
                      (by show now < now + 3; linarith),
                      hmStep_start_at_early rfl htup
                      (by show now < now + 3; linarith), Or.inl rfl⟩
                  · cases chunks with
                    | nil =>
                      obtain rfl := step_det h1
                        (hmStep_up_exited_empty_lines hup htup hprot hstat hlines)
                      obtain rfl := step_det h2 (hmStep_start_at_early rfl htup
                        (by show now < now + 3; linarith))
                      obtain rfl := step_det h3 (hmStep_start_at_early rfl htup
                        (by show now < now + 3; linarith))
                      obtain rfl := step_det h4 (hmStep_start_at_early rfl htup
                        (by show now < now + 3; linarith))
                      exact ⟨_, hmStep_start_at_early rfl htup
                        (by show now < now + 3; linarith),
                        hmStep_start_at_early rfl htup
                        (by show now < now + 3; linarith), Or.inl rfl⟩
                    | cons ch chs =>
                      rw [hmStep_up_exited_lines hup htup hprot hstat hlines] at h1
                      exact Option.noConfusion h1
            · obtain rfl := step_det h1 (hmStep_up_other hws hwd hsa hst hup htup)
              rcases hscript : db.agent_script with _ | s
              · obtain rfl := step_det h2 (hmStep_start_no_script rfl htup hscript)
                obtain rfl := step_det h3 (hmStep_up_other
                  (by show ¬("down" : String) = "wait_start"; decide)
                  (by show ¬("down" : String) = "wait_dead"; decide)
                  (by show ¬("down" : String) = "start_at"; decide)
                  (by show ¬("down" : String) = "start"; decide)
                  (by show ¬("down" : String) = "up"; decide) htup)
                obtain rfl := step_det h4 (hmStep_start_no_script rfl htup hscript)
                exact ⟨_, hmStep_up_other
                  (by show ¬("down" : String) = "wait_start"; decide)
                  (by show ¬("down" : String) = "wait_dead"; decide)
                  (by show ¬("down" : String) = "start_at"; decide)
                  (by show ¬("down" : String) = "start"; decide)
                  (by show ¬("down" : String) = "up"; decide) htup,
                  hmStep_start_no_script rfl htup hscript, Or.inr ⟨htup, hscript, Or.inr ⟨rfl, rfl⟩⟩⟩
              · obtain rfl := step_det h2 (hmStep_start_script rfl htup hscript)
                obtain rfl := step_det h3 (hmStep_wait_start_none_early rfl rfl
                  (by show now < now + 1; linarith))
                obtain rfl := step_det h4 (hmStep_wait_start_none_early rfl rfl
                  (by show now < now + 1; linarith))
                exact ⟨_, hmStep_wait_start_none_early rfl rfl
                  (by show now < now + 1; linarith),
                  hmStep_wait_start_none_early rfl rfl
                  (by show now < now + 1; linarith), Or.inl rfl⟩
      · by_cases htdown : db.target_state = "down"
        · by_cases hdn : db.next_action = "down"
          · rcases hprot : db.prot with _ | p
            · obtain rfl := step_det h1 (hmStep_down_down_none hdn htdown hprot)
              obtain rfl := step_det h2 (hmStep_down_down_none hdn htdown hprot)
              obtain rfl := step_det h3 (hmStep_down_down_none hdn htdown hprot)
              obtain rfl := step_det h4 (hmStep_down_down_none hdn htdown hprot)
              exact ⟨_, hmStep_down_down_none hdn htdown hprot,
                hmStep_down_down_none hdn htdown hprot, Or.inl rfl⟩
            · rcases hstat : p.status.1 with _ | c
              · obtain rfl := step_det h1 (hmStep_down_down_alive hdn htdown hprot hstat)
                obtain rfl := step_det h2 (hmStep_up_other
                  (by simp [hdn]) (by simp [hdn]) (by simp [hdn]) (by simp [hdn])
                  (by simp [hdn]) rfl)
                rcases hscript : db.agent_script with _ | s
                · obtain rfl := step_det h3 (hmStep_start_no_script rfl rfl hscript)
                  obtain rfl := step_det h4 (hmStep_up_other
                    (by show ¬("down" : String) = "wait_start"; decide)
                    (by show ¬("down" : String) = "wait_dead"; decide)
                    (by show ¬("down" : String) = "start_at"; decide)
                    (by show ¬("down" : String) = "start"; decide)
                    (by show ¬("down" : String) = "up"; decide) rfl)
                  exact ⟨_, hmStep_start_no_script rfl rfl hscript,
                    hmStep_up_other
                    (by show ¬("down" : String) = "wait_start"; decide)
                    (by show ¬("down" : String) = "wait_dead"; decide)
                    (by show ¬("down" : String) = "start_at"; decide)
                    (by show ¬("down" : String) = "start"; decide)
                    (by show ¬("down" : String) = "up"; decide) rfl, Or.inr ⟨rfl, hscript, Or.inl ⟨rfl, rfl⟩⟩⟩
                · obtain rfl := step_det h3 (hmStep_start_script rfl rfl hscript)
                  obtain rfl := step_det h4 (hmStep_wait_start_none_early rfl rfl
                    (by show now < now + 1; linarith))
                  exact ⟨_, hmStep_wait_start_none_early rfl rfl
                    (by show now < now + 1; linarith),
                    hmStep_wait_start_none_early rfl rfl
                    (by show now < now + 1; linarith), Or.inl rfl⟩
              · obtain rfl := step_det h1 (hmStep_down_down_exited hdn htdown hprot hstat)
                obtain rfl := step_det h2 (hmStep_down_down_exited hdn htdown hprot hstat)
                obtain rfl := step_det h3 (hmStep_down_down_exited hdn htdown hprot hstat)
                obtain rfl := step_det h4 (hmStep_down_down_exited hdn htdown hprot hstat)
                exact ⟨_, hmStep_down_down_exited hdn htdown hprot hstat,
                  hmStep_down_down_exited hdn htdown hprot hstat, Or.inl rfl⟩
          · by_cases hup : db.next_action = "up"
            · obtain rfl := step_det h1 (hmStep_down_up hup htdown)
              rcases hprot : db.prot with _ | p
              · obtain rfl := step_det h2 (hmStep_wait_dead_none rfl hprot)
                obtain rfl := step_det h3 (hmStep_down_down_none rfl htdown hprot)
                obtain rfl := step_det h4 (hmStep_down_down_none rfl htdown hprot)
                exact ⟨_, hmStep_down_down_none rfl htdown hprot,
                  hmStep_down_down_none rfl htdown hprot, Or.inl rfl⟩
              · rcases hstat : p.status.1 with _ | c
                · obtain rfl := step_det h2 (hmStep_wait_dead_alive_early rfl hprot hstat
                    (by show now < now + 5; linarith))
                  obtain rfl := step_det h3 (hmStep_wait_dead_alive_early rfl hprot hstat
                    (by show now < now + 5; linarith))
                  obtain rfl := step_det h4 (hmStep_wait_dead_alive_early rfl hprot hstat
                    (by show now < now + 5; linarith))
                  exact ⟨_, hmStep_wait_dead_alive_early rfl hprot hstat
                    (by show now < now + 5; linarith),
                    hmStep_wait_dead_alive_early rfl hprot hstat
                    (by show now < now + 5; linarith), Or.inl rfl⟩
                · obtain rfl := step_det h2 (hmStep_wait_dead_exited rfl hprot hstat)
                  obtain rfl := step_det h3 (hmStep_down_down_exited rfl htdown hprot hstat)
                  obtain rfl := step_det h4 (hmStep_down_down_exited rfl htdown hprot hstat)
                  exact ⟨_, hmStep_down_down_exited rfl htdown hprot hstat,
                    hmStep_down_down_exited rfl htdown hprot hstat, Or.inl rfl⟩
            · obtain rfl := step_det h1 (hmStep_down_other hws hwd hdn hup htdown)
              rcases hprot : db.prot with _ | p
              · obtain rfl := step_det h2 (hmStep_down_down_none rfl htdown hprot)
                obtain rfl := step_det h3 (hmStep_down_down_none rfl htdown hprot)
                obtain rfl := step_det h4 (hmStep_down_down_none rfl htdown hprot)
                exact ⟨_, hmStep_down_down_none rfl htdown hprot,
                  hmStep_down_down_none rfl htdown hprot, Or.inl rfl⟩
              · rcases hstat : p.status.1 with _ | c
                · obtain rfl := step_det h2 (hmStep_down_down_alive rfl htdown hprot hstat)
                  obtain rfl := step_det h3 (hmStep_up_other
                    (by show ¬("down" : String) = "wait_start"; decide)
                    (by show ¬("down" : String) = "wait_dead"; decide)
                    (by show ¬("down" : String) = "start_at"; decide)
                    (by show ¬("down" : String) = "start"; decide)
                    (by show ¬("down" : String) = "up"; decide) rfl)
                  rcases hscript : db.agent_script with _ | s
                  · obtain rfl := step_det h4 (hmStep_start_no_script rfl rfl hscript)
                    exact ⟨_, hmStep_up_other
                      (by show ¬("down" : String) = "wait_start"; decide)
                      (by show ¬("down" : String) = "wait_dead"; decide)
                      (by show ¬("down" : String) = "start_at"; decide)
                      (by show ¬("down" : String) = "start"; decide)
                      (by show ¬("down" : String) = "up"; decide) rfl,
                      hmStep_start_no_script rfl rfl hscript, Or.inr ⟨rfl, hscript, Or.inr ⟨rfl, rfl⟩⟩⟩
                  · obtain rfl := step_det h4 (hmStep_start_script rfl rfl hscript)
                    exact ⟨_, hmStep_wait_start_none_early rfl rfl
                      (by show now < now + 1; linarith),
                      hmStep_wait_start_none_early rfl rfl
                      (by show now < now + 1; linarith), Or.inl rfl⟩
                · obtain rfl := step_det h2 (hmStep_down_down_exited rfl htdown hprot hstat)
                  obtain rfl := step_det h3 (hmStep_down_down_exited rfl htdown hprot hstat)
                  obtain rfl := step_det h4 (hmStep_down_down_exited rfl htdown hprot hstat)
                  exact ⟨_, hmStep_down_down_exited rfl htdown hprot hstat,
                    hmStep_down_down_exited rfl htdown hprot hstat, Or.inl rfl⟩
        · obtain rfl := step_det h1 (hmStep_fallback hws hwd htup htdown)
          obtain rfl := step_det h2 (hmStep_fallback hws hwd htup htdown)
          obtain rfl := step_det h3 (hmStep_fallback hws hwd htup htdown)
          obtain rfl := step_det h4 (hmStep_fallback hws hwd htup htdown)
          exact ⟨_, hmStep_fallback hws hwd htup htdown,
            hmStep_fallback hws hwd htup htdown, Or.inl rfl⟩
/-- Counterexample to C5 as stated: with an unchanged clock and
unchanged `prot` (a dead executor), a record in `wait_start` yields
`next_action = up` after the first call but `next_action = start_at`
after the second call, although `up` after the first call has no pending
`at` deadline (`at = 0 < now`). -/
theorem c5_next_action_counterexample :
    (HostManager.stepR 100
        { baseRec with
            target_state := "up", next_action := "wait_start", prot := some deadProt }).map
        Record.next_action = some "up" ∧
    ((HostManager.stepR 100
        { baseRec with
            target_state := "up", next_action := "wait_start", prot := some deadProt }).bind
        (HostManager.stepR 100)).map Record.next_action = some "start_at" ∧
    ("up" : String) ≠ "start_at" := by
  exact ⟨by decide, by decide, by decide⟩

/-- C5 (amended): with an unchanged clock and `prot` untouched from the
outside, repeated calls of the `host_manager` state machine settle
within four calls: whenever six consecutive calls succeed, the sixth
record equals the fourth, and either the fifth record already equals
the fourth — the sequence has become constant — or the machine is in
the ConfigError oscillation, `target_state = up` with `agent_script =
None`, where `next_action` alternates between `start` and `down`. -/
theorem c5_repeated_calls_settle (now : ℚ) (db r1 r2 r3 r4 r5 r6 : Record)
    (h1 : HostManager.stepR now db = some r1) (h2 : HostManager.stepR now r1 = some r2)
    (h3 : HostManager.stepR now r2 = some r3) (h4 : HostManager.stepR now r3 = some r4)
    (h5 : HostManager.stepR now r4 = some r5) (h6 : HostManager.stepR now r5 = some r6) :
    r6 = r4 ∧
      (r5 = r4 ∨
        (r4.target_state = "up" ∧ r4.agent_script = none ∧
         ((r4.next_action = "start" ∧ r5.next_action = "down") ∨
          (r4.next_action = "down" ∧ r5.next_action = "start")))) := by
  obtain ⟨r', hA, hB, hC⟩ := hm_settles_in_four now db r1 r2 r3 r4 h1 h2 h3 h4
  obtain rfl := step_det h5 hA
  exact ⟨step_det h6 hB, hC⟩

/-- Witness for C5 at the ConfigError record (`target_state = up`,
`agent_script = None`, starting in `start`): the six calls alternate
between the `start` and `down` records, exhibiting the oscillation
disjunct. -/
theorem c5_repeated_calls_settle_witness :
    ({ baseRec with target_state := "up", agent_script := none, next_action := "start" } : Record) =
      { baseRec with target_state := "up", agent_script := none, next_action := "start" } ∧
    (({ baseRec with target_state := "up", agent_script := none, next_action := "down" } : Record) =
       { baseRec with target_state := "up", agent_script := none, next_action := "start" } ∨
      (({ baseRec with target_state := "up", agent_script := none, next_action := "start" } : Record).target_state = "up" ∧
       ({ baseRec with target_state := "up", agent_script := none, next_action := "start" } : Record).agent_script = none ∧
       ((({ baseRec with target_state := "up", agent_script := none, next_action := "start" } : Record).next_action = "start" ∧
         ({ baseRec with target_state := "up", agent_script := none, next_action := "down" } : Record).next_action = "down") ∨
        (({ baseRec with target_state := "up", agent_script := none, next_action := "start" } : Record).next_action = "down" ∧
         ({ baseRec with target_state := "up", agent_script := none, next_action := "down" } : Record).next_action = "start")))) :=
  c5_repeated_calls_settle 0
    { baseRec with target_state := "up", agent_script := none, next_action := "start" }
    { baseRec with target_state := "up", agent_script := none, next_action := "down" }
    { baseRec with target_state := "up", agent_script := none, next_action := "start" }
    { baseRec with target_state := "up", agent_script := none, next_action := "down" }
    { baseRec with target_state := "up", agent_script := none, next_action := "start" }
    { baseRec with target_state := "up", agent_script := none, next_action := "down" }
    { baseRec with target_state := "up", agent_script := none, next_action := "start" }
    (by decide) (by decide) (by decide) (by decide) (by decide) (by decide)
end OCS
